import Mathlib

/-!
Shallow embedding of the pricing and overtime-allocation engine of the
attica_invoice repository.

Conventions of the embedding:
* times of day are rational numbers of seconds since local midnight
  (the source parses `%H:%M:%S` strings into polars `time` values and all
  arithmetic on them is exact integer-microsecond arithmetic);
* durations are rational numbers of seconds (polars `Duration` values are
  exact integers of microseconds, and dividing one duration by another in
  the source yields a float; here the quotient is an exact rational);
* calendar dates are represented by their Rata Die number (days since
  0000-12-31 in the proleptic Gregorian calendar), so that Python's
  `date + timedelta(days = n)` is plain integer addition;
* money and tonnage are rationals.
-/

namespace Attica

/-! ## Time constants (src/type_casting/dates.py) -/

/-- `UPPER_BOUND: time = time(17, 0, 0)` — the normal-day overtime cutoff,
in seconds since midnight. -/
def UPPER_BOUND : ℚ := 61200

/-- `UPPER_BOUND_SPECIAL_DAY: time = time(16, 0, 0)` — the special-day
overtime cutoff, in seconds since midnight. -/
def UPPER_BOUND_SPECIAL_DAY : ℚ := 57600

/-- `MORNING_CUTOFF: time = time(7, 59, 0)` in seconds since midnight. -/
def MORNING_CUTOFF : ℚ := 28740

/-- One day, in seconds: `pl.duration(days=1)` added by
`(pl.col("date") + pl.duration(days=1))`. -/
def daySeconds : ℚ := 86400

/-! ## The salt overtime allocator (src/dataframe/shore_handling.py)

The polars expressions are module-level; each one is embedded as a function
of the row's fields: `sp` is the value of `is_special_day`
(`day_name ∈ SPECIAL_DAYS`), `s` is `start_time`, `e` is `end_time`,
both in seconds since midnight.  `pl.col("date").dt.combine(x) -
pl.col("date").dt.combine(y)` is the duration `x - y`. -/

/-- `after_midnight = (end_time < start_time) & (end_time <= MORNING_CUTOFF)`
(shore_handling.py lines 97-99). -/
abbrev afterMidnight (s e : ℚ) : Prop :=
  e < s ∧ e ≤ MORNING_CUTOFF

/-- `before_cut_off_normal_day = (end_time < UPPER_BOUND) & (start_time < UPPER_BOUND)` -/
abbrev beforeCutOffNormalDay (s e : ℚ) : Prop :=
  e < UPPER_BOUND ∧ s < UPPER_BOUND

/-- `end_time_after_cut_off = (end_time > UPPER_BOUND) & (start_time < UPPER_BOUND)` -/
abbrev endTimeAfterCutOff (s e : ℚ) : Prop :=
  e > UPPER_BOUND ∧ s < UPPER_BOUND

/-- `start_after_cut_off_normal_day = (end_time > UPPER_BOUND) & (start_time >= UPPER_BOUND)` -/
abbrev startAfterCutOffNormalDay (s e : ℚ) : Prop :=
  e > UPPER_BOUND ∧ s ≥ UPPER_BOUND

/-- `stop_after_cut_off_normal_day = (end_time > UPPER_BOUND) & (start_time < UPPER_BOUND)` -/
abbrev stopAfterCutOffNormalDay (s e : ℚ) : Prop :=
  e > UPPER_BOUND ∧ s < UPPER_BOUND

/-- `start_after_cut_off_special_day = (end_time > UPPER_BOUND_SPECIAL_DAY) & (start_time >= UPPER_BOUND_SPECIAL_DAY)` -/
abbrev startAfterCutOffSpecialDay (s e : ℚ) : Prop :=
  e > UPPER_BOUND_SPECIAL_DAY ∧ s ≥ UPPER_BOUND_SPECIAL_DAY

/-- `stop_after_cut_off_special_day = (end_time > UPPER_BOUND_SPECIAL_DAY) & (start_time < UPPER_BOUND_SPECIAL_DAY)` -/
abbrev stopAfterCutOffSpecialDay (s e : ℚ) : Prop :=
  e > UPPER_BOUND_SPECIAL_DAY ∧ s < UPPER_BOUND_SPECIAL_DAY

/-- `stop_before_cut_off_special_day = (end_time <= UPPER_BOUND_SPECIAL_DAY) & (start_time < UPPER_BOUND_SPECIAL_DAY)` -/
abbrev stopBeforeCutOffSpecialDay (s e : ℚ) : Prop :=
  e ≤ UPPER_BOUND_SPECIAL_DAY ∧ s < UPPER_BOUND_SPECIAL_DAY

/-- `before_upper_bound_portion`: the pre-cutoff part of a midnight-crossing
interval on a normal day, else the empty duration. -/
def beforeUpperBoundPortion (sp : Bool) (s e : ℚ) : ℚ :=
  if afterMidnight s e ∧ sp = false ∧ s < UPPER_BOUND then UPPER_BOUND - s else 0

/-- `after_upper_bound_until_midnight`: the cutoff-to-midnight part of a
midnight-crossing interval on a normal day. -/
def afterUpperBoundUntilMidnight (sp : Bool) (s e : ℚ) : ℚ :=
  if afterMidnight s e ∧ sp = false ∧ s < UPPER_BOUND then daySeconds - UPPER_BOUND
  else if afterMidnight s e ∧ sp = false ∧ s ≥ UPPER_BOUND then daySeconds - s
  else 0

/-- `portion_after_midnight`: the part of a midnight-crossing interval that
lies on the next calendar day (`(date+1).combine(end) - (date+1).combine(0)`). -/
def portionAfterMidnight (s e : ℚ) : ℚ :=
  if afterMidnight s e then e else 0

/-- `duration_after_midnight = (date+1).combine(end_time) - date.combine(start_time)`. -/
def durationAfterMidnight (s e : ℚ) : ℚ := e + daySeconds - s

/-- The `normal` duration column of the `salt` pipeline (first
`with_columns` block of `salt`). -/
def saltNormalDur (sp : Bool) (s e : ℚ) : ℚ :=
  if afterMidnight s e ∧ sp = false then beforeUpperBoundPortion sp s e
  else if sp = false ∧ endTimeAfterCutOff s e ∧ ¬afterMidnight s e then UPPER_BOUND - s
  else if sp = false ∧ beforeCutOffNormalDay s e ∧ ¬afterMidnight s e then e - s
  else 0

/-- The `normal_150` duration column of the `salt` pipeline. -/
def saltNormal150Dur (sp : Bool) (s e : ℚ) : ℚ :=
  if afterMidnight s e ∧ sp = false then afterUpperBoundUntilMidnight sp s e
  else if sp = false ∧ startAfterCutOffNormalDay s e ∧ ¬afterMidnight s e then e - s
  else if sp = false ∧ stopAfterCutOffNormalDay s e ∧ ¬afterMidnight s e then e - UPPER_BOUND
  else 0

/-- The `sun_150` duration column of the `salt` pipeline. -/
def saltSun150Dur (sp : Bool) (s e : ℚ) : ℚ :=
  if sp = true ∧ stopAfterCutOffSpecialDay s e ∧ ¬afterMidnight s e then
    UPPER_BOUND_SPECIAL_DAY - s
  else if sp = true ∧ stopBeforeCutOffSpecialDay s e ∧ ¬afterMidnight s e then e - s
  else if sp = true ∧ afterMidnight s e ∧ s < UPPER_BOUND_SPECIAL_DAY then
    UPPER_BOUND_SPECIAL_DAY - s
  else 0

/-- The `overtime_200` duration column of the `salt` pipeline. -/
def saltOvertime200Dur (sp : Bool) (s e : ℚ) : ℚ :=
  if sp = true ∧ startAfterCutOffSpecialDay s e ∧ ¬afterMidnight s e then e - s
  else if sp = true ∧ stopAfterCutOffSpecialDay s e ∧ ¬afterMidnight s e then
    e - UPPER_BOUND_SPECIAL_DAY
  else if sp = true ∧ afterMidnight s e then
    (if s ≥ UPPER_BOUND_SPECIAL_DAY then durationAfterMidnight s e
     else e + daySeconds - UPPER_BOUND_SPECIAL_DAY)
  else if sp = false ∧ afterMidnight s e then portionAfterMidnight s e
  else 0

/-- The `total_duration` column of the `salt` pipeline. -/
def saltTotalDuration (s e : ℚ) : ℚ :=
  if afterMidnight s e then durationAfterMidnight s e else e - s

/-- The denominator used by the second `with_columns` block of `salt`:
`pl.when(after_midnight).then(total_duration).otherwise(durations)`. -/
def saltDenom (s e : ℚ) : ℚ :=
  if afterMidnight s e then saltTotalDuration s e else e - s

/-- The weighted `normal` tonnage amount of the `salt` pipeline. -/
def saltNormalAmt (sp : Bool) (s e t : ℚ) : ℚ :=
  saltNormalDur sp s e / saltDenom s e * t

/-- The weighted `overtime_150` tonnage amount of the `salt` pipeline
(the sum of the `normal_150` and `sun_150` shares). -/
def saltOvertime150Amt (sp : Bool) (s e t : ℚ) : ℚ :=
  saltNormal150Dur sp s e / saltDenom s e * t + saltSun150Dur sp s e / saltDenom s e * t

/-- The weighted `overtime_200` tonnage amount of the `salt` pipeline. -/
def saltOvertime200Amt (sp : Bool) (s e t : ℚ) : ℚ :=
  saltOvertime200Dur sp s e / saltDenom s e * t

/-- Gregorian leap-year test, as Python's `calendar`/`datetime` use. -/
def isLeapYear (y : ℤ) : Bool :=
  (y % 4 == 0 && y % 100 != 0) || (y % 400 == 0)

/-- Rata Die number (days since 0000-12-31, proleptic Gregorian) of the
calendar date `(y, m, d)`; `Python date(y, m, d).toordinal()`. -/
def rataDie (y m d : ℤ) : ℤ :=
  365 * (y - 1) + (y - 1) / 4 - (y - 1) / 100 + (y - 1) / 400 +
    (367 * m - 362) / 12 +
    (if m ≤ 2 then 0 else if isLeapYear y then -1 else -2) + d

/-- Python's `date.weekday()`: 0 = Monday, ..., 6 = Sunday. -/
def pyWeekday (rd : ℤ) : ℤ := (rd + 6) % 7

/-- The `fixed_holidays` list of `DayName.__get_public_holidays`
(src/type_casting/dates.py): Jan 1, Jan 2, May 1, Jun 18, Jun 29, Aug 15,
Nov 1, Dec 8, Dec 25. -/
def fixedHolidays (y : ℤ) : List ℤ :=
  [rataDie y 1 1, rataDie y 1 2, rataDie y 5 1, rataDie y 6 18, rataDie y 6 29,
    rataDie y 8 15, rataDie y 11 1, rataDie y 12 8, rataDie y 12 25]

/-- Easter Sunday as computed by `__get_public_holidays` (the Meeus
anonymous Gregorian algorithm, transcribed from the source). -/
def easterDate (y : ℤ) : ℤ :=
  let a := y % 19
  let b := y / 100
  let c := y % 100
  let d := (19 * a + b - b / 4 - ((b - (b + 8) / 25 + 1) / 3) + 15) % 30
  let e := (32 + 2 * (b % 4) + 2 * (c / 4) - d - c % 4) % 7
  let f := d + e - 7 * ((a + 11 * d + 22 * e) / 451) + 114
  rataDie y (f / 31) (f % 31 + 1)

/-- The observed-Monday loop of `__get_public_holidays`: for every fixed
holiday falling on a Sunday, the following Monday. -/
def observedMondays (y : ℤ) : List ℤ :=
  (fixedHolidays y).filterMap fun h => if pyWeekday h = 6 then some (h + 1) else none

/-- `DayName.__get_public_holidays(year)`: fixed holidays, then Easter
Sunday, Easter Monday, Holy Saturday, Good Friday and Corpus Christi
(Easter + 60), then the observed Mondays, returned sorted. -/
def getPublicHolidays (y : ℤ) : List ℤ :=
  (fixedHolidays y ++
    [easterDate y, easterDate y + 1, easterDate y - 1, easterDate y - 2,
      easterDate y + 60] ++
    observedMondays y).mergeSort (· ≤ ·)

/-- The holiday set as the spec describes it: the nine fixed dates, Easter
Sunday by the Meeus algorithm, Good Friday (Easter − 2), Holy Saturday
(Easter − 1), Easter Monday (Easter + 1), Corpus Christi (Easter + 60),
plus the following Monday for every fixed holiday falling on a Sunday —
and nothing else. -/
def SpecHoliday (y d : ℤ) : Prop :=
  d ∈ fixedHolidays y ∨
    d = easterDate y ∨ d = easterDate y - 2 ∨ d = easterDate y - 1 ∨
    d = easterDate y + 1 ∨ d = easterDate y + 60 ∨
    ∃ h ∈ fixedHolidays y, pyWeekday h = 6 ∧ d = h + 1

structure PriceEntry where
  service : String
  date : ℤ
  price : ℚ
deriving DecidableEq

/-- `get_price(service)` (src/data/price.py): the price table filtered to
the rows whose `Service` is in the requested list, keeping the sheet's row
order and the `StartingDate` (aliased `Date`) column. -/
def get_price (names : List String) (catalog : List PriceEntry) : List PriceEntry :=
  catalog.filter fun pe => names.contains pe.service

/-- `salt_price` of `price_list` (src/dataframe/shore_handling.py lines
45-52): filter the fetched price table to the two salt services and take
the price of the FIRST remaining row (`.to_series()[0]`), whatever its
`StartingDate`. -/
def salt_price (catalog : List PriceEntry) : Option ℚ :=
  (((get_price ["CCCS Movement in/out", "Loading (Quay to Ship)", "Loading @ Zone 14"]
        catalog).filter fun pe =>
      (["Loading (Quay to Ship)", "Loading @ Zone 14"] : List String).contains
        pe.service).head?).map PriceEntry.price

/-- `join_asof(..., by="Service", left_on="date", right_on="Date",
strategy="backward")` applied to one left row: among the price rows for
service `s` (kept in sheet order, assumed date-sorted as polars requires),
the last one whose date does not exceed the activity date `d`; `none` when
no such row exists (the joined `Price` column is null). -/
def joinAsofPrice (catalog : List PriceEntry) (s : String) (d : ℤ) : Option PriceEntry :=
  ((catalog.filter fun pe => decide (pe.service = s)).filter fun pe =>
    decide (pe.date ≤ d)).getLast?

/-- The spec's as-of lookup answer: the entry for `s` with the greatest
effective date that is at most the query date. -/
def IsAsOfEntry (catalog : List PriceEntry) (s : String) (d : ℤ) (pe : PriceEntry) : Prop :=
  pe ∈ catalog ∧ pe.service = s ∧ pe.date ≤ d ∧
    ∀ q ∈ catalog, q.service = s → q.date ≤ d → q.date ≤ pe.date

/-- `list_of_services` (src/data/price.py lines 57-92), transcribed
verbatim: the source omits the comma after the `"Haulage TEU"` literal, so
Python's implicit string concatenation fuses it with the following
`"Container Stuffing - Brine"` literal into one element. -/
def list_of_services : List String :=
  ["CCCS Movement in/out",
    "Loading (Quay to Ship)",
    "Loading @ Zone 14",
    "Tipping Truck",
    "Loading to Cargo",
    "Transfer of by-catch",
    "Cross Stuffing",
    "Unstuffing by Hand",
    "Unstuffing to Cargo",
    "Unstuffing to CCCS",
    "CCCS (By-Catch)",
    "Shore Crane & Fishloader",
    "Shore Crane & Fishloader (by catch)",
    "Static Loader",
    "Container Stuffing by Hand",
    "Shifting",
    "Plugin",
    "PTI S Freezer",
    "PTI Magnum",
    "PTI Standard",
    "Electricity Price Standard",
    "Container Cleaning",
    "Stuffing",
    "Monitoring",
    "Electricity Price S Freezer",
    "Electricity Price Magnum",
    "Electricity Price Standard",
    "Pallets",
    "Plastic Liner Installation",
    "Pallets(+ Wedges) Usage",
    "Haulage FEU",
    "Haulage TEUContainer Stuffing - Brine",
    "Container Stuffing - Dry"]

/-- `ALL_PRICE = get_price(list_of_services)`. -/
def ALL_PRICE (catalog : List PriceEntry) : List PriceEntry :=
  get_price list_of_services catalog

namespace OvertimePerc

/-- `OvertimePerc.normal_hour: float = 1.0` (src/type_casting/validations.py). -/
def normal_hour : ℚ := 1

/-- `OvertimePerc.overtime_150: float = 1.5`. -/
def overtime_150 : ℚ := 3 / 2

/-- `OvertimePerc.overtime_200: float = 2.0`. -/
def overtime_200 : ℚ := 2

end OvertimePerc

/-- The `total_price` column of `static_loader`
(src/dataframe/miscellaneous.py lines 135-161): `specialDay` is
`day ∈ SPECIAL_DAYS`, `tonnage` the `static_loader` column, `overtime` the
`overtime_tonnage` column, `price` the as-of joined `Price`. -/
def static_loader_total_price (specialDay : Bool) (tonnage overtime price : ℚ) : ℚ :=
  if specialDay then
    price * (tonnage - overtime) * OvertimePerc.overtime_150 +
      price * overtime * OvertimePerc.overtime_200
  else
    price * (tonnage - overtime) * OvertimePerc.normal_hour +
      price * overtime * OvertimePerc.overtime_150

/-- The `total_price` column of `bin_tipping`
(src/dataframe/shore_handling.py lines 509-528), with `tonnage` the
`Tonnage Tipped` column and `overtime` the `Overtime` column. -/
def bin_tipping_total_price (specialDay : Bool) (tonnage overtime price : ℚ) : ℚ :=
  if specialDay then
    price * OvertimePerc.overtime_150 * (tonnage - overtime) +
      price * OvertimePerc.overtime_200 * overtime
  else
    price * OvertimePerc.normal_hour * (tonnage - overtime) +
      price * OvertimePerc.overtime_150 * overtime

/-! ## The by-catch partitioning (src/dataframe/miscellaneous.py) -/

/-- The join key of the by-catch reconciliation:
`(date, customer, vessel, movement_type)`. -/
structure BCKey where
  date : ℤ
  customer : ℕ
  vessel : ℕ
  movement : ℕ
deriving DecidableEq

/-- One (already grouped) activity row of the by-catch family. -/
structure BCRow where
  key : BCKey
  tonnage : ℚ
  overtime : ℚ
deriving DecidableEq

/-- `__by_catch_with_transfer`: left-join the by-catch rows with the
transfer rows on the key, keep the matched rows
(`total_tonnage_right.is_not_null()`), net the tonnages
(`total_tonnage - total_tonnage_right`, likewise overtime), and drop the
rows netting to exactly zero (`.filter(pl.col("total_tonnage").ne(0))`). -/
def byCatchWithTransfer (bc tr : List BCRow) : List BCRow :=
  bc.filterMap fun r =>
    (tr.find? fun t => decide (t.key = r.key)).bind fun t =>
      if r.tonnage - t.tonnage = 0 then none
      else some ⟨r.key, r.tonnage - t.tonnage, r.overtime - t.overtime⟩

/-- `_by_catch_only`: the by-catch rows left-joined first with the matched
partition and then with the transfer table, keeping only the rows with no
match in either (`operation_type_right.is_null()` twice). -/
def byCatchOnly (bc tr : List BCRow) : List BCRow :=
  ((bc.filter fun r =>
      !((byCatchWithTransfer bc tr).any fun t => decide (t.key = r.key))).filter
    fun r => !(tr.any fun t => decide (t.key = r.key)))

/-- `by_catch`: the concatenation
`pl.concat([by_catch_only, df_transfer, by_catch_and_transfer])` — note the
middle component is the ENTIRE transfer table. -/
def byCatchConcat (bc tr : List BCRow) : List BCRow :=
  byCatchOnly bc tr ++ tr ++ byCatchWithTransfer bc tr

/-! ## Proofs -/

/-- Normal day, forward interval ending before the cutoff. -/
lemma salt_regime_F1 (s e : ℚ) (h1 : s < e) (h2 : e < UPPER_BOUND) :
    saltNormalDur false s e = e - s ∧ saltNormal150Dur false s e = 0 ∧
      saltSun150Dur false s e = 0 ∧ saltOvertime200Dur false s e = 0 ∧
      saltDenom s e = e - s := by
  have ham : ¬ afterMidnight s e := fun h => absurd h.1 (not_lt.2 h1.le)
  have hsU : s < UPPER_BOUND := h1.trans h2
  refine ⟨?_, ?_, ?_, ?_, ?_⟩
  · unfold saltNormalDur
    rw [if_neg (fun h => ham h.1), if_neg (fun h => absurd h.2.1.1 (not_lt.2 h2.le)),
      if_pos ⟨rfl, ⟨h2, hsU⟩, ham⟩]
  · unfold saltNormal150Dur
    rw [if_neg (fun h => ham h.1), if_neg (fun h => absurd h.2.1.1 (not_lt.2 h2.le)),
      if_neg (fun h => absurd h.2.1.1 (not_lt.2 h2.le))]
  · unfold saltSun150Dur
    rw [if_neg (fun h => Bool.noConfusion h.1), if_neg (fun h => Bool.noConfusion h.1),
      if_neg (fun h => Bool.noConfusion h.1)]
  · unfold saltOvertime200Dur
    rw [if_neg (fun h => Bool.noConfusion h.1), if_neg (fun h => Bool.noConfusion h.1),
      if_neg (fun h => Bool.noConfusion h.1), if_neg (fun h => ham h.2)]
  · unfold saltDenom
    rw [if_neg ham]

/-- Normal day, forward interval straddling the cutoff. -/
lemma salt_regime_F2 (s e : ℚ) (hs : s < UPPER_BOUND) (he : UPPER_BOUND < e) :
    saltNormalDur false s e = UPPER_BOUND - s ∧ saltNormal150Dur false s e = e - UPPER_BOUND ∧
      saltSun150Dur false s e = 0 ∧ saltOvertime200Dur false s e = 0 ∧
      saltDenom s e = e - s := by
  have h1 : s < e := hs.trans he
  have ham : ¬ afterMidnight s e := fun h => absurd h.1 (not_lt.2 h1.le)
  refine ⟨?_, ?_, ?_, ?_, ?_⟩
  · unfold saltNormalDur
    rw [if_neg (fun h => ham h.1), if_pos ⟨rfl, ⟨he, hs⟩, ham⟩]
  · unfold saltNormal150Dur
    rw [if_neg (fun h => ham h.1), if_neg (fun h => absurd h.2.1.2 (not_le.2 hs)),
      if_pos ⟨rfl, ⟨he, hs⟩, ham⟩]
  · unfold saltSun150Dur
    rw [if_neg (fun h => Bool.noConfusion h.1), if_neg (fun h => Bool.noConfusion h.1),
      if_neg (fun h => Bool.noConfusion h.1)]
  · unfold saltOvertime200Dur
    rw [if_neg (fun h => Bool.noConfusion h.1), if_neg (fun h => Bool.noConfusion h.1),
      if_neg (fun h => Bool.noConfusion h.1), if_neg (fun h => ham h.2)]
  · unfold saltDenom
    rw [if_neg ham]

/-- Normal day, forward interval entirely at or after the cutoff. -/
lemma salt_regime_F3 (s e : ℚ) (hs : UPPER_BOUND ≤ s) (h1 : s < e) :
    saltNormalDur false s e = 0 ∧ saltNormal150Dur false s e = e - s ∧
      saltSun150Dur false s e = 0 ∧ saltOvertime200Dur false s e = 0 ∧
      saltDenom s e = e - s := by
  have he : UPPER_BOUND < e := lt_of_le_of_lt hs h1
  have ham : ¬ afterMidnight s e := fun h => absurd h.1 (not_lt.2 h1.le)
  refine ⟨?_, ?_, ?_, ?_, ?_⟩
  · unfold saltNormalDur
    rw [if_neg (fun h => ham h.1), if_neg (fun h => absurd h.2.1.2 (not_lt.2 hs)),
      if_neg (fun h => absurd h.2.1.2 (not_lt.2 hs))]
  · unfold saltNormal150Dur
    rw [if_neg (fun h => ham h.1), if_pos ⟨rfl, ⟨he, hs⟩, ham⟩]
  · unfold saltSun150Dur
    rw [if_neg (fun h => Bool.noConfusion h.1), if_neg (fun h => Bool.noConfusion h.1),
      if_neg (fun h => Bool.noConfusion h.1)]
  · unfold saltOvertime200Dur
    rw [if_neg (fun h => Bool.noConfusion h.1), if_neg (fun h => Bool.noConfusion h.1),
      if_neg (fun h => Bool.noConfusion h.1), if_neg (fun h => ham h.2)]
  · unfold saltDenom
    rw [if_neg ham]

/-- Normal day, midnight-crossing interval starting before the cutoff. -/
lemma salt_regime_X1 (s e : ℚ) (hm : afterMidnight s e) (hs : s < UPPER_BOUND) :
    saltNormalDur false s e = UPPER_BOUND - s ∧
      saltNormal150Dur false s e = daySeconds - UPPER_BOUND ∧
      saltSun150Dur false s e = 0 ∧ saltOvertime200Dur false s e = e ∧
      saltDenom s e = e + daySeconds - s := by
  refine ⟨?_, ?_, ?_, ?_, ?_⟩
  · unfold saltNormalDur beforeUpperBoundPortion
    rw [if_pos ⟨hm, rfl⟩, if_pos ⟨hm, rfl, hs⟩]
  · unfold saltNormal150Dur afterUpperBoundUntilMidnight
    rw [if_pos ⟨hm, rfl⟩, if_pos ⟨hm, rfl, hs⟩]
  · unfold saltSun150Dur
    rw [if_neg (fun h => Bool.noConfusion h.1), if_neg (fun h => Bool.noConfusion h.1),
      if_neg (fun h => Bool.noConfusion h.1)]
  · unfold saltOvertime200Dur portionAfterMidnight
    rw [if_neg (fun h => Bool.noConfusion h.1), if_neg (fun h => Bool.noConfusion h.1),
      if_neg (fun h => Bool.noConfusion h.1), if_pos ⟨rfl, hm⟩, if_pos hm]
  · unfold saltDenom saltTotalDuration durationAfterMidnight
    rw [if_pos hm, if_pos hm]

/-- Normal day, midnight-crossing interval starting at or after the cutoff. -/
lemma salt_regime_X2 (s e : ℚ) (hm : afterMidnight s e) (hs : UPPER_BOUND ≤ s) :
    saltNormalDur false s e = 0 ∧ saltNormal150Dur false s e = daySeconds - s ∧
      saltSun150Dur false s e = 0 ∧ saltOvertime200Dur false s e = e ∧
      saltDenom s e = e + daySeconds - s := by
  refine ⟨?_, ?_, ?_, ?_, ?_⟩
  · unfold saltNormalDur beforeUpperBoundPortion
    rw [if_pos ⟨hm, rfl⟩, if_neg (fun h => absurd h.2.2 (not_lt.2 hs))]
  · unfold saltNormal150Dur afterUpperBoundUntilMidnight
    rw [if_pos ⟨hm, rfl⟩, if_neg (fun h => absurd h.2.2 (not_lt.2 hs)), if_pos ⟨hm, rfl, hs⟩]
  · unfold saltSun150Dur
    rw [if_neg (fun h => Bool.noConfusion h.1), if_neg (fun h => Bool.noConfusion h.1),
      if_neg (fun h => Bool.noConfusion h.1)]
  · unfold saltOvertime200Dur portionAfterMidnight
    rw [if_neg (fun h => Bool.noConfusion h.1), if_neg (fun h => Bool.noConfusion h.1),
      if_neg (fun h => Bool.noConfusion h.1), if_pos ⟨rfl, hm⟩, if_pos hm]
  · unfold saltDenom saltTotalDuration durationAfterMidnight
    rw [if_pos hm, if_pos hm]

/-- Special day, forward interval ending at or before the special cutoff. -/
lemma salt_regime_T1 (s e : ℚ) (h1 : s < e) (he : e ≤ UPPER_BOUND_SPECIAL_DAY) :
    saltNormalDur true s e = 0 ∧ saltNormal150Dur true s e = 0 ∧
      saltSun150Dur true s e = e - s ∧ saltOvertime200Dur true s e = 0 ∧
      saltDenom s e = e - s := by
  have ham : ¬ afterMidnight s e := fun h => absurd h.1 (not_lt.2 h1.le)
  have hsU : s < UPPER_BOUND_SPECIAL_DAY := h1.trans_le he
  refine ⟨?_, ?_, ?_, ?_, ?_⟩
  · unfold saltNormalDur
    rw [if_neg (fun h => ham h.1), if_neg (fun h => Bool.noConfusion h.1),
      if_neg (fun h => Bool.noConfusion h.1)]
  · unfold saltNormal150Dur
    rw [if_neg (fun h => ham h.1), if_neg (fun h => Bool.noConfusion h.1),
      if_neg (fun h => Bool.noConfusion h.1)]
  · unfold saltSun150Dur
    rw [if_neg (fun h => absurd h.2.1.1 (not_lt.2 he)), if_pos ⟨rfl, ⟨he, hsU⟩, ham⟩]
  · unfold saltOvertime200Dur
    rw [if_neg (fun h => absurd h.2.1.1 (not_lt.2 he)),
      if_neg (fun h => absurd h.2.1.1 (not_lt.2 he)), if_neg (fun h => ham h.2),
      if_neg (fun h => Bool.noConfusion h.1)]
  · unfold saltDenom
    rw [if_neg ham]

/-- Special day, forward interval straddling the special cutoff. -/
lemma salt_regime_T2 (s e : ℚ) (hs : s < UPPER_BOUND_SPECIAL_DAY)
    (he : UPPER_BOUND_SPECIAL_DAY < e) :
    saltNormalDur true s e = 0 ∧ saltNormal150Dur true s e = 0 ∧
      saltSun150Dur true s e = UPPER_BOUND_SPECIAL_DAY - s ∧
      saltOvertime200Dur true s e = e - UPPER_BOUND_SPECIAL_DAY ∧
      saltDenom s e = e - s := by
  have h1 : s < e := hs.trans he
  have ham : ¬ afterMidnight s e := fun h => absurd h.1 (not_lt.2 h1.le)
  refine ⟨?_, ?_, ?_, ?_, ?_⟩
  · unfold saltNormalDur
    rw [if_neg (fun h => ham h.1), if_neg (fun h => Bool.noConfusion h.1),
      if_neg (fun h => Bool.noConfusion h.1)]
  · unfold saltNormal150Dur
    rw [if_neg (fun h => ham h.1), if_neg (fun h => Bool.noConfusion h.1),
      if_neg (fun h => Bool.noConfusion h.1)]
  · unfold saltSun150Dur
    rw [if_pos ⟨rfl, ⟨he, hs⟩, ham⟩]
  · unfold saltOvertime200Dur
    rw [if_neg (fun h => absurd h.2.1.2 (not_le.2 hs)), if_pos ⟨rfl, ⟨he, hs⟩, ham⟩]
  · unfold saltDenom
    rw [if_neg ham]

/-- Special day, forward interval entirely at or after the special cutoff. -/
lemma salt_regime_T3 (s e : ℚ) (hs : UPPER_BOUND_SPECIAL_DAY ≤ s) (h1 : s < e) :
    saltNormalDur true s e = 0 ∧ saltNormal150Dur true s e = 0 ∧
      saltSun150Dur true s e = 0 ∧ saltOvertime200Dur true s e = e - s ∧
      saltDenom s e = e - s := by
  have he : UPPER_BOUND_SPECIAL_DAY < e := lt_of_le_of_lt hs h1
  have ham : ¬ afterMidnight s e := fun h => absurd h.1 (not_lt.2 h1.le)
  refine ⟨?_, ?_, ?_, ?_, ?_⟩
  · unfold saltNormalDur
    rw [if_neg (fun h => ham h.1), if_neg (fun h => Bool.noConfusion h.1),
      if_neg (fun h => Bool.noConfusion h.1)]
  · unfold saltNormal150Dur
    rw [if_neg (fun h => ham h.1), if_neg (fun h => Bool.noConfusion h.1),
      if_neg (fun h => Bool.noConfusion h.1)]
  · unfold saltSun150Dur
    rw [if_neg (fun h => absurd h.2.1.2 (not_lt.2 hs)),
      if_neg (fun h => absurd h.2.1.2 (not_lt.2 hs)),
      if_neg (fun h => absurd h.2.2 (not_lt.2 hs))]
  · unfold saltOvertime200Dur
    rw [if_pos ⟨rfl, ⟨he, hs⟩, ham⟩]
  · unfold saltDenom
    rw [if_neg ham]

/-- Special day, midnight-crossing interval starting before the special cutoff. -/
lemma salt_regime_Y1 (s e : ℚ) (hm : afterMidnight s e) (hs : s < UPPER_BOUND_SPECIAL_DAY) :
    saltNormalDur true s e = 0 ∧ saltNormal150Dur true s e = 0 ∧
      saltSun150Dur true s e = UPPER_BOUND_SPECIAL_DAY - s ∧
      saltOvertime200Dur true s e = e + daySeconds - UPPER_BOUND_SPECIAL_DAY ∧
      saltDenom s e = e + daySeconds - s := by
  refine ⟨?_, ?_, ?_, ?_, ?_⟩
  · unfold saltNormalDur
    rw [if_neg (fun h => Bool.noConfusion h.2), if_neg (fun h => Bool.noConfusion h.1),
      if_neg (fun h => Bool.noConfusion h.1)]
  · unfold saltNormal150Dur
    rw [if_neg (fun h => Bool.noConfusion h.2), if_neg (fun h => Bool.noConfusion h.1),
      if_neg (fun h => Bool.noConfusion h.1)]
  · unfold saltSun150Dur
    rw [if_neg (fun h => h.2.2 hm), if_neg (fun h => h.2.2 hm), if_pos ⟨rfl, hm, hs⟩]
  · unfold saltOvertime200Dur
    rw [if_neg (fun h => h.2.2 hm), if_neg (fun h => h.2.2 hm), if_pos ⟨rfl, hm⟩,
      if_neg (not_le.2 hs)]
  · unfold saltDenom saltTotalDuration durationAfterMidnight
    rw [if_pos hm, if_pos hm]

/-- Special day, midnight-crossing interval starting at or after the special cutoff. -/
lemma salt_regime_Y2 (s e : ℚ) (hm : afterMidnight s e) (hs : UPPER_BOUND_SPECIAL_DAY ≤ s) :
    saltNormalDur true s e = 0 ∧ saltNormal150Dur true s e = 0 ∧
      saltSun150Dur true s e = 0 ∧ saltOvertime200Dur true s e = e + daySeconds - s ∧
      saltDenom s e = e + daySeconds - s := by
  refine ⟨?_, ?_, ?_, ?_, ?_⟩
  · unfold saltNormalDur
    rw [if_neg (fun h => Bool.noConfusion h.2), if_neg (fun h => Bool.noConfusion h.1),
      if_neg (fun h => Bool.noConfusion h.1)]
  · unfold saltNormal150Dur
    rw [if_neg (fun h => Bool.noConfusion h.2), if_neg (fun h => Bool.noConfusion h.1),
      if_neg (fun h => Bool.noConfusion h.1)]
  · unfold saltSun150Dur
    rw [if_neg (fun h => h.2.2 hm), if_neg (fun h => h.2.2 hm),
      if_neg (fun h => absurd h.2.2 (not_lt.2 hs))]
  · unfold saltOvertime200Dur durationAfterMidnight
    rw [if_neg (fun h => h.2.2 hm), if_neg (fun h => h.2.2 hm), if_pos ⟨rfl, hm⟩,
      if_pos hs]
  · unfold saltDenom saltTotalDuration durationAfterMidnight
    rw [if_pos hm, if_pos hm]

/-- The four duration buckets of the `salt` pipeline are non-negative and sum
to the division denominator, which is positive, on every well-formed row:
times of day in `[0, 86400)` and the interval either strictly forward (with
`end_time ≠ 17:00:00` on normal days) or classified as midnight-crossing. -/
lemma salt_buckets (sp : Bool) (s e : ℚ)
    (hs0 : 0 ≤ s) (hs1 : s < daySeconds) (he0 : 0 ≤ e) (he1 : e < daySeconds)
    (hdom : (s < e ∧ (sp = false → e ≠ UPPER_BOUND)) ∨ afterMidnight s e) :
    0 ≤ saltNormalDur sp s e ∧ 0 ≤ saltNormal150Dur sp s e ∧
      0 ≤ saltSun150Dur sp s e ∧ 0 ≤ saltOvertime200Dur sp s e ∧
      saltNormalDur sp s e + saltNormal150Dur sp s e + saltSun150Dur sp s e +
        saltOvertime200Dur sp s e = saltDenom s e ∧ 0 < saltDenom s e := by
  have hUB : UPPER_BOUND = (61200 : ℚ) := rfl
  have hUBS : UPPER_BOUND_SPECIAL_DAY = (57600 : ℚ) := rfl
  have hDS : daySeconds = (86400 : ℚ) := rfl
  rcases hdom with ⟨h1, h2⟩ | hm
  · cases sp with
    | false =>
      rcases (h2 rfl).lt_or_lt with he | he
      · obtain ⟨a, b, c, d, f⟩ := salt_regime_F1 s e h1 he
        rw [a, b, c, d, f]
        refine ⟨by linarith, by linarith, by linarith, by linarith, by ring, by linarith⟩
      · rcases lt_or_le s UPPER_BOUND with hs | hs
        · obtain ⟨a, b, c, d, f⟩ := salt_regime_F2 s e hs he
          rw [a, b, c, d, f]
          refine ⟨by linarith, by linarith, by linarith, by linarith, by ring, by linarith⟩
        · obtain ⟨a, b, c, d, f⟩ := salt_regime_F3 s e hs h1
          rw [a, b, c, d, f]
          refine ⟨by linarith, by linarith, by linarith, by linarith, by ring, by linarith⟩
    | true =>
      rcases le_or_lt e UPPER_BOUND_SPECIAL_DAY with he | he
      · obtain ⟨a, b, c, d, f⟩ := salt_regime_T1 s e h1 he
        rw [a, b, c, d, f]
        refine ⟨by linarith, by linarith, by linarith, by linarith, by ring, by linarith⟩
      · rcases lt_or_le s UPPER_BOUND_SPECIAL_DAY with hs | hs
        · obtain ⟨a, b, c, d, f⟩ := salt_regime_T2 s e hs he
          rw [a, b, c, d, f]
          refine ⟨by linarith, by linarith, by linarith, by linarith, by ring, by linarith⟩
        · obtain ⟨a, b, c, d, f⟩ := salt_regime_T3 s e hs h1
          rw [a, b, c, d, f]
          refine ⟨by linarith, by linarith, by linarith, by linarith, by ring, by linarith⟩
  · cases sp with
    | false =>
      rcases lt_or_le s UPPER_BOUND with hs | hs
      · obtain ⟨a, b, c, d, f⟩ := salt_regime_X1 s e hm hs
        rw [a, b, c, d, f]
        refine ⟨by linarith, by linarith, by linarith, by linarith, by ring, by linarith⟩
      · obtain ⟨a, b, c, d, f⟩ := salt_regime_X2 s e hm hs
        rw [a, b, c, d, f]
        refine ⟨by linarith, by linarith, by linarith, by linarith, by ring, by linarith⟩
    | true =>
      rcases lt_or_le s UPPER_BOUND_SPECIAL_DAY with hs | hs
      · obtain ⟨a, b, c, d, f⟩ := salt_regime_Y1 s e hm hs
        rw [a, b, c, d, f]
        refine ⟨by linarith, by linarith, by linarith, by linarith, by ring, by linarith⟩
      · obtain ⟨a, b, c, d, f⟩ := salt_regime_Y2 s e hm hs
        rw [a, b, c, d, f]
        refine ⟨by linarith, by linarith, by linarith, by linarith, by ring, by linarith⟩

/-- Claim C1 (amended): on every well-formed salt row — times of day in
`[0, 86400)`, non-negative tonnage, and an interval that is either strictly
forward (with `end_time` distinct from the 17:00 cutoff on normal days) or
classified as midnight-crossing by the code — the three output amounts
`normal`, `overtime_150` and `overtime_200` are non-negative and sum to the
row's tonnage exactly (hence within the 1e-6 tolerance). -/
theorem salt_split_totality (sp : Bool) (s e t : ℚ)
    (hs0 : 0 ≤ s) (hs1 : s < daySeconds) (he0 : 0 ≤ e) (he1 : e < daySeconds)
    (ht : 0 ≤ t)
    (hdom : (s < e ∧ (sp = false → e ≠ UPPER_BOUND)) ∨ afterMidnight s e) :
    0 ≤ saltNormalAmt sp s e t ∧ 0 ≤ saltOvertime150Amt sp s e t ∧
      0 ≤ saltOvertime200Amt sp s e t ∧
      saltNormalAmt sp s e t + saltOvertime150Amt sp s e t +
        saltOvertime200Amt sp s e t = t := by
  obtain ⟨h1, h2, h3, h4, h5, h6⟩ := salt_buckets sp s e hs0 hs1 he0 he1 hdom
  have hd0 : saltDenom s e ≠ 0 := ne_of_gt h6
  unfold saltNormalAmt saltOvertime150Amt saltOvertime200Amt
  refine ⟨mul_nonneg (div_nonneg h1 h6.le) ht,
    add_nonneg (mul_nonneg (div_nonneg h2 h6.le) ht) (mul_nonneg (div_nonneg h3 h6.le) ht),
    mul_nonneg (div_nonneg h4 h6.le) ht, ?_⟩
  field_simp
  linear_combination t * h5

/-- Witness for C1: the spec's own end-to-end salt scenario, a normal-day
row from 08:00 to 19:00 with 100 tonnes. -/
theorem salt_split_totality_witness :
    0 ≤ saltNormalAmt false 28800 68400 100 ∧ 0 ≤ saltOvertime150Amt false 28800 68400 100 ∧
      0 ≤ saltOvertime200Amt false 28800 68400 100 ∧
      saltNormalAmt false 28800 68400 100 + saltOvertime150Amt false 28800 68400 100 +
        saltOvertime200Amt false 28800 68400 100 = 100 :=
  salt_split_totality false 28800 68400 100 (by norm_num) (by norm_num [daySeconds])
    (by norm_num) (by norm_num [daySeconds]) (by norm_num)
    (Or.inl ⟨by norm_num, fun _ => by norm_num [UPPER_BOUND]⟩)

/-- Counterexample to C1 as stated: a normal-day row from 08:00 to exactly
17:00 (the cutoff) with 10 tonnes falls through every `when` branch of the
`salt` pipeline — all three buckets are 0 and their sum misses the tonnage
by 10, far outside the 1e-6 tolerance. -/
theorem salt_split_totality_cex :
    saltNormalAmt false 28800 61200 10 = 0 ∧ saltOvertime150Amt false 28800 61200 10 = 0 ∧
      saltOvertime200Amt false 28800 61200 10 = 0 ∧
      ¬ |saltNormalAmt false 28800 61200 10 + saltOvertime150Amt false 28800 61200 10 +
          saltOvertime200Amt false 28800 61200 10 - 10| ≤ 1 / 1000000 := by
  norm_num [saltNormalAmt, saltOvertime150Amt, saltOvertime200Amt, saltNormalDur,
    saltNormal150Dur, saltSun150Dur, saltOvertime200Dur, saltDenom, saltTotalDuration,
    beforeUpperBoundPortion, afterUpperBoundUntilMidnight, portionAfterMidnight,
    durationAfterMidnight, afterMidnight, beforeCutOffNormalDay, endTimeAfterCutOff,
    startAfterCutOffNormalDay, stopAfterCutOffNormalDay, startAfterCutOffSpecialDay,
    stopAfterCutOffSpecialDay, stopBeforeCutOffSpecialDay, UPPER_BOUND,
    UPPER_BOUND_SPECIAL_DAY, MORNING_CUTOFF, daySeconds]

/-- Claim C6: a salt row on a normal day from 22:00 to 02:00 with 10.0
tonnes yields `normal = 0`, `overtime_150 = 10 * 2h/4h = 5` (the
duration-weighted share of 22:00-24:00) and `overtime_200 = 10 * 2h/4h = 5`
(the share of 00:00-02:00), summing to 10. -/
theorem salt_midnight_crossing_normal_day :
    saltNormalAmt false 79200 7200 10 = 0 ∧
      saltOvertime150Amt false 79200 7200 10 = 10 * (2 / 4) ∧
      saltOvertime200Amt false 79200 7200 10 = 10 * (2 / 4) ∧
      saltNormalAmt false 79200 7200 10 + saltOvertime150Amt false 79200 7200 10 +
        saltOvertime200Amt false 79200 7200 10 = 10 := by
  norm_num [saltNormalAmt, saltOvertime150Amt, saltOvertime200Amt, saltNormalDur,
    saltNormal150Dur, saltSun150Dur, saltOvertime200Dur, saltDenom, saltTotalDuration,
    beforeUpperBoundPortion, afterUpperBoundUntilMidnight, portionAfterMidnight,
    durationAfterMidnight, afterMidnight, beforeCutOffNormalDay, endTimeAfterCutOff,
    startAfterCutOffNormalDay, stopAfterCutOffNormalDay, startAfterCutOffSpecialDay,
    stopAfterCutOffSpecialDay, stopBeforeCutOffSpecialDay, UPPER_BOUND,
    UPPER_BOUND_SPECIAL_DAY, MORNING_CUTOFF, daySeconds]

/-- Counterexample to C4 as stated: a row with `start_time` 23:00 and
`end_time` 09:00 has `end_time < start_time`, yet `after_midnight` is false
(09:00 exceeds the 07:59 `MORNING_CUTOFF`), and the pipeline's
`total_duration` is the negative `end - start`, not the midnight-spanning
duration. -/
theorem midnight_criterion_cex :
    (32400 : ℚ) < 82800 ∧ ¬ afterMidnight 82800 32400 ∧
      saltTotalDuration 82800 32400 = 32400 - 82800 := by
  have h : ¬ afterMidnight (82800 : ℚ) 32400 := by
    rintro ⟨-, h⟩
    norm_num [MORNING_CUTOFF] at h
  exact ⟨by norm_num, h, by unfold saltTotalDuration; rw [if_neg h]⟩

/-- Claim C4 (amended): a row is treated as crossing midnight if and only
if `end_time < start_time` AND `end_time ≤ 07:59:00` (`MORNING_CUTOFF`);
an inverted interval whose end is after 07:59 is not treated as crossing,
and its total duration is computed as the plain (negative) `end - start`. -/
theorem midnight_crossing_criterion (s e : ℚ) :
    (afterMidnight s e ↔ e < s ∧ e ≤ MORNING_CUTOFF) ∧
      (e < s → MORNING_CUTOFF < e → saltTotalDuration s e = e - s) ∧
      (e < s → e ≤ MORNING_CUTOFF → saltTotalDuration s e = e + daySeconds - s) := by
  refine ⟨Iff.rfl, ?_, ?_⟩
  · intro h1 h2
    unfold saltTotalDuration
    rw [if_neg (fun h => absurd h.2 (not_le.2 h2))]
  · intro h1 h2
    unfold saltTotalDuration durationAfterMidnight
    rw [if_pos ⟨h1, h2⟩]

/-- Witness for C4 (amended) at 23:00-02:00: a genuinely crossing row gets
the midnight-spanning total duration. -/
theorem midnight_crossing_criterion_witness :
    (7200 : ℚ) < 82800 ∧ (7200 : ℚ) ≤ MORNING_CUTOFF ∧
      saltTotalDuration 82800 7200 = 7200 + daySeconds - 82800 :=
  ⟨by norm_num, by norm_num [MORNING_CUTOFF],
    (midnight_crossing_criterion 82800 7200).2.2 (by norm_num) (by norm_num [MORNING_CUTOFF])⟩

/-- Claim C5, evaluating the code at the failing input: for a zero-length
interval (start = end = 08:00) the division denominator is zero and every
weighted amount divides zero by zero — under the rational-arithmetic
convention the result is `(0, 0, 0)`, not the `(measure, 0, 0)` the spec
requires (in the source's float arithmetic the row becomes NaN). -/
theorem salt_zero_length_interval :
    saltDenom 28800 28800 = 0 ∧ saltNormalAmt false 28800 28800 10 = 0 ∧
      saltOvertime150Amt false 28800 28800 10 = 0 ∧
      saltOvertime200Amt false 28800 28800 10 = 0 := by
  norm_num [saltNormalAmt, saltOvertime150Amt, saltOvertime200Amt, saltNormalDur,
    saltNormal150Dur, saltSun150Dur, saltOvertime200Dur, saltDenom, saltTotalDuration,
    beforeUpperBoundPortion, afterUpperBoundUntilMidnight, portionAfterMidnight,
    durationAfterMidnight, afterMidnight, beforeCutOffNormalDay, endTimeAfterCutOff,
    startAfterCutOffNormalDay, stopAfterCutOffNormalDay, startAfterCutOffSpecialDay,
    stopAfterCutOffSpecialDay, stopBeforeCutOffSpecialDay, UPPER_BOUND,
    UPPER_BOUND_SPECIAL_DAY, MORNING_CUTOFF, daySeconds]

lemma mem_observedMondays (y d : ℤ) :
    d ∈ observedMondays y ↔ ∃ h ∈ fixedHolidays y, pyWeekday h = 6 ∧ d = h + 1 := by
  unfold observedMondays
  simp only [List.mem_filterMap]
  constructor
  · rintro ⟨h, hh, hf⟩
    by_cases hw : pyWeekday h = 6
    · rw [if_pos hw] at hf
      exact ⟨h, hh, hw, (Option.some.inj hf).symm⟩
    · rw [if_neg hw] at hf
      cases hf
  · rintro ⟨h, hh, hw, rfl⟩
    exact ⟨h, hh, by rw [if_pos hw]⟩

/-- Claim C7: for every year, membership in the computed public-holiday
list is exactly membership in the spec's holiday set — the nine fixed
dates, the five Easter-relative dates and the observed Mondays, and
nothing else. -/
theorem public_holiday_set_composition (y d : ℤ) :
    d ∈ getPublicHolidays y ↔ SpecHoliday y d := by
  unfold getPublicHolidays SpecHoliday
  rw [List.Perm.mem_iff (List.mergeSort_perm _ _)]
  simp only [List.mem_append, List.mem_cons, List.not_mem_nil, or_false,
    mem_observedMondays]
  tauto

lemma joinAsofPrice_eq_none_iff (catalog : List PriceEntry) (s : String) (d : ℤ) :
    joinAsofPrice catalog s d = none ↔ ∀ pe ∈ catalog, pe.service = s → d < pe.date := by
  unfold joinAsofPrice
  rw [List.getLast?_eq_none_iff, List.filter_eq_nil_iff]
  constructor
  · intro h pe hmem hsvc
    by_contra hd
    exact h pe (List.mem_filter.mpr ⟨hmem, by simpa using hsvc⟩)
      (by simpa using not_lt.mp hd)
  · intro h pe hmem
    obtain ⟨hc, hsvc⟩ := List.mem_filter.mp hmem
    simpa using (h pe hc (by simpa using hsvc)).not_le

lemma joinAsofPrice_some_mem (catalog : List PriceEntry) (s : String) (d : ℤ)
    (pe : PriceEntry) (h : joinAsofPrice catalog s d = some pe) :
    pe ∈ catalog ∧ pe.service = s ∧ pe.date ≤ d := by
  have hmem := List.mem_of_mem_getLast? (l := _) (a := pe) h
  obtain ⟨h1, h2⟩ := List.mem_filter.mp hmem
  obtain ⟨h3, h4⟩ := List.mem_filter.mp h1
  exact ⟨h3, by simpa using h4, by simpa using h2⟩

lemma pairwise_getLast?_max (l : List PriceEntry)
    (hs : l.Pairwise fun a b => a.date ≤ b.date) (pe : PriceEntry)
    (h : l.getLast? = some pe) : ∀ x ∈ l, x.date ≤ pe.date := by
  induction l with
  | nil => cases h
  | cons a t ih =>
    cases t with
    | nil =>
      intro x hx
      simp only [List.getLast?_singleton, Option.some.injEq] at h
      rcases List.mem_singleton.mp hx with rfl
      rw [h]
    | cons b u =>
      rw [List.getLast?_cons_cons] at h
      have hp := List.pairwise_cons.mp hs
      intro x hx
      rcases List.mem_cons.mp hx with rfl | hx2
      · exact hp.1 pe (List.mem_of_mem_getLast? h)
      · exact ih hp.2 h x hx2

lemma joinAsofPrice_some_max (catalog : List PriceEntry) (s : String) (d : ℤ)
    (hsort : (catalog.filter fun pe => decide (pe.service = s)).Pairwise
      fun a b => a.date ≤ b.date)
    (pe : PriceEntry) (h : joinAsofPrice catalog s d = some pe) :
    ∀ q ∈ catalog, q.service = s → q.date ≤ d → q.date ≤ pe.date := by
  intro q hq hsvc hd
  have hsort2 := List.Pairwise.filter (fun pe => decide (pe.date ≤ d)) hsort
  refine pairwise_getLast?_max _ hsort2 pe h q ?_
  exact List.mem_filter.mpr
    ⟨List.mem_filter.mpr ⟨hq, by simpa using hsvc⟩, by simpa using hd⟩

/-- Claim C3 (amended): the embedded as-of lookup implements the spec's
lookup semantics — on a date-sorted price table it returns the entry for
the service with the greatest effective date not exceeding the query date —
but, when no eligible entry exists (no entries for the service, or all
dated after the query date), the left as-of join yields a null price
(`none`) for the row; the code raises no `PriceNotFound` error (no such
error exists in the source). -/
theorem price_lookup_semantics (catalog : List PriceEntry) (s : String) (d : ℤ)
    (hsort : (catalog.filter fun pe => decide (pe.service = s)).Pairwise
      fun a b => a.date ≤ b.date) :
    (joinAsofPrice catalog s d = none ↔ ∀ pe ∈ catalog, pe.service = s → d < pe.date) ∧
      ∀ pe, joinAsofPrice catalog s d = some pe →
        pe ∈ catalog ∧ pe.service = s ∧ pe.date ≤ d ∧
          ∀ q ∈ catalog, q.service = s → q.date ≤ d → q.date ≤ pe.date := by
  refine ⟨joinAsofPrice_eq_none_iff catalog s d, fun pe h => ?_⟩
  obtain ⟨h1, h2, h3⟩ := joinAsofPrice_some_mem catalog s d pe h
  exact ⟨h1, h2, h3, joinAsofPrice_some_max catalog s d hsort pe h⟩

/-- Witness for C3 at a one-entry catalog: the lookup finds the unique
eligible entry and certifies its as-of maximality. -/
theorem price_lookup_semantics_witness :
    (([⟨"Static Loader", 100, 7⟩] :
        List PriceEntry).filter fun pe => decide (pe.service = "Static Loader")).Pairwise
      (fun a b => a.date ≤ b.date) ∧
      ((joinAsofPrice [⟨"Static Loader", 100, 7⟩] "Static Loader" 150 = none ↔
        ∀ pe ∈ ([⟨"Static Loader", 100, 7⟩] : List PriceEntry),
          pe.service = "Static Loader" → 150 < pe.date) ∧
        ∀ pe, joinAsofPrice [⟨"Static Loader", 100, 7⟩] "Static Loader" 150 = some pe →
          pe ∈ ([⟨"Static Loader", 100, 7⟩] : List PriceEntry) ∧
            pe.service = "Static Loader" ∧ pe.date ≤ 150 ∧
            ∀ q ∈ ([⟨"Static Loader", 100, 7⟩] : List PriceEntry),
              q.service = "Static Loader" → q.date ≤ 150 → q.date ≤ pe.date) :=
  ⟨by decide, price_lookup_semantics [⟨"Static Loader", 100, 7⟩] "Static Loader" 150
    (by decide)⟩

/-- Counterexample to C3 as stated: a catalog whose only entry for the
service is dated after the query date makes the as-of join produce `none`
(a silent null price for the row) instead of failing with a `PriceNotFound`
error. -/
theorem price_lookup_no_error_cex :
    joinAsofPrice [⟨"Static Loader", 739000, 5⟩] "Static Loader" 738990 = none := by
  decide

/-- Claim C2 (amended): for the pipelines that price by
`join_asof(strategy="backward")` (static loader, dispatch, cross stuffing,
by-catch, ...), every activity row is priced at the catalog entry with the
greatest effective date not exceeding the row's own date, provided the
service's price rows are date-sorted and at least one entry predates the
row; the salt and bin-tipping prices are NOT looked up this way (see the
counterexample). -/
theorem asof_pricing (catalog : List PriceEntry) (s : String) (d : ℤ)
    (hsort : (catalog.filter fun pe => decide (pe.service = s)).Pairwise
      fun a b => a.date ≤ b.date)
    (hex : ∃ pe ∈ catalog, pe.service = s ∧ pe.date ≤ d) :
    ∃ pe, joinAsofPrice catalog s d = some pe ∧ IsAsOfEntry catalog s d pe := by
  obtain ⟨w, hw, hwsvc, hwd⟩ := hex
  rcases hj : joinAsofPrice catalog s d with _ | pe
  · exact absurd ((joinAsofPrice_eq_none_iff catalog s d).mp hj w hw hwsvc) hwd.not_lt
  · obtain ⟨h1, h2, h3⟩ := joinAsofPrice_some_mem catalog s d pe hj
    exact ⟨pe, rfl, h1, h2, h3, joinAsofPrice_some_max catalog s d hsort pe hj⟩

/-- Witness for C2 at a two-entry catalog: the entry effective on the
activity date is returned, not the older one. -/
theorem asof_pricing_witness :
    (([⟨"Tipping Truck", 100, 2⟩, ⟨"Tipping Truck", 200, 3⟩] :
        List PriceEntry).filter fun pe => decide (pe.service = "Tipping Truck")).Pairwise
      (fun a b => a.date ≤ b.date) ∧
      (∃ pe ∈ ([⟨"Tipping Truck", 100, 2⟩, ⟨"Tipping Truck", 200, 3⟩] : List PriceEntry),
        pe.service = "Tipping Truck" ∧ pe.date ≤ 250) ∧
      ∃ pe, joinAsofPrice [⟨"Tipping Truck", 100, 2⟩, ⟨"Tipping Truck", 200, 3⟩]
          "Tipping Truck" 250 = some pe ∧
        IsAsOfEntry [⟨"Tipping Truck", 100, 2⟩, ⟨"Tipping Truck", 200, 3⟩]
          "Tipping Truck" 250 pe :=
  ⟨by decide, ⟨⟨"Tipping Truck", 100, 2⟩, by decide⟩,
    asof_pricing [⟨"Tipping Truck", 100, 2⟩, ⟨"Tipping Truck", 200, 3⟩] "Tipping Truck" 250
      (by decide) ⟨⟨"Tipping Truck", 100, 2⟩, by decide⟩⟩

/-- Counterexample to C2 as stated: with two price entries for
`"Loading (Quay to Ship)"` (price 2 effective at date 739000, price 3
effective at date 739100), the salt pipeline's `salt_price` is the first
filtered row's price 2 — applied uniformly to every row — while the as-of
price at an activity dated 739100 is 3. -/
theorem asof_pricing_salt_cex :
    salt_price [⟨"Loading (Quay to Ship)", 739000, 2⟩,
        ⟨"Loading (Quay to Ship)", 739100, 3⟩] = some 2 ∧
      (joinAsofPrice [⟨"Loading (Quay to Ship)", 739000, 2⟩,
          ⟨"Loading (Quay to Ship)", 739100, 3⟩] "Loading (Quay to Ship)"
          739100).map PriceEntry.price = some 3 ∧
      (2 : ℚ) ≠ 3 := by
  refine ⟨by decide, by decide, by norm_num⟩

/-- Claim C10: the missing comma between the `"Haulage TEU"` and
`"Container Stuffing - Brine"` literals makes the single fused string an
element of `list_of_services` while neither intended service name is one,
so `ALL_PRICE` never contains a price entry for either service. -/
theorem haulage_teu_missing_comma (catalog : List PriceEntry) (pe : PriceEntry)
    (hmem : pe ∈ ALL_PRICE catalog) :
    "Haulage TEUContainer Stuffing - Brine" ∈ list_of_services ∧
      "Haulage TEU" ∉ list_of_services ∧
      "Container Stuffing - Brine" ∉ list_of_services ∧
      pe.service ≠ "Haulage TEU" ∧ pe.service ≠ "Container Stuffing - Brine" := by
  have hm := (List.mem_filter.mp hmem).2
  refine ⟨by decide, by decide, by decide, ?_, ?_⟩
  · intro hsvc
    rw [hsvc] at hm
    exact absurd hm (by decide)
  · intro hsvc
    rw [hsvc] at hm
    exact absurd hm (by decide)

/-- Witness for C10: a concrete catalog row for a listed service passes the
`ALL_PRICE` filter and is certified not to be either lost service. -/
theorem haulage_teu_missing_comma_witness :
    (⟨"Static Loader", 0, 5⟩ : PriceEntry) ∈ ALL_PRICE [⟨"Static Loader", 0, 5⟩] ∧
      ("Haulage TEUContainer Stuffing - Brine" ∈ list_of_services ∧
        "Haulage TEU" ∉ list_of_services ∧
        "Container Stuffing - Brine" ∉ list_of_services ∧
        (⟨"Static Loader", 0, 5⟩ : PriceEntry).service ≠ "Haulage TEU" ∧
        (⟨"Static Loader", 0, 5⟩ : PriceEntry).service ≠ "Container Stuffing - Brine") :=
  ⟨by decide, haulage_teu_missing_comma [⟨"Static Loader", 0, 5⟩] ⟨"Static Loader", 0, 5⟩
    (by decide)⟩

/-- Claim C8: the flat-rate pipelines compute
`(T − OT)·p·1.0 + OT·p·1.5` on normal days and `(T − OT)·p·1.5 + OT·p·2.0`
on special days, for both the static-loader and the bin-tipping pipeline;
in particular a special-day static-loader row with `T = 20`, `OT = 5`,
`p = 10` totals 325.0. -/
theorem flat_two_tier_rule (T OT p : ℚ) :
    static_loader_total_price true T OT p = (T - OT) * p * (3 / 2) + OT * p * 2 ∧
      static_loader_total_price false T OT p = (T - OT) * p * 1 + OT * p * (3 / 2) ∧
      bin_tipping_total_price true T OT p = (T - OT) * p * (3 / 2) + OT * p * 2 ∧
      bin_tipping_total_price false T OT p = (T - OT) * p * 1 + OT * p * (3 / 2) ∧
      static_loader_total_price true 20 5 10 = 325 := by
  unfold static_loader_total_price bin_tipping_total_price OvertimePerc.normal_hour
    OvertimePerc.overtime_150 OvertimePerc.overtime_200
  norm_num
  refine ⟨by ring, by ring, by ring, by ring⟩

lemma mem_byCatchWithTransfer (bc tr : List BCRow) (x : BCRow)
    (hx : x ∈ byCatchWithTransfer bc tr) :
    x.tonnage ≠ 0 ∧
      ∃ p ∈ bc, ∃ t ∈ tr, t.key = p.key ∧ x.key = p.key ∧
        x.tonnage = p.tonnage - t.tonnage ∧ x.overtime = p.overtime - t.overtime := by
  obtain ⟨p, hp, hf⟩ := List.mem_filterMap.mp hx
  rcases hft : tr.find? fun u => decide (u.key = p.key) with _ | u
  · rw [hft, Option.none_bind] at hf
    cases hf
  · rw [hft, Option.some_bind] at hf
    have humem := List.mem_of_find?_eq_some hft
    have hukey : u.key = p.key := by simpa using List.find?_some hft
    by_cases hz : p.tonnage - u.tonnage = 0
    · rw [if_pos hz] at hf
      cases hf
    · rw [if_neg hz] at hf
      obtain rfl := Option.some.inj hf
      exact ⟨hz, p, hp, u, humem, hukey, rfl, rfl, rfl⟩

/-- Claim C9 (amended): the by-catch-only partition is disjoint from the
transfer keys (hence from the matched partition, whose keys are transfer
keys); every by-catch row either survives in the by-catch-only partition or
has a transfer match on the key; every row of the matched partition has
non-zero netted tonnage (zero-net rows are dropped, never priced) and is a
by-catch row netted by `by_catch_tonnage − transfer_tonnage` against a
matching transfer row.  The concatenated third component, however, is the
whole transfer table, not a "transfer only" partition (see the
counterexample). -/
theorem by_catch_partition (bc tr : List BCRow) (r x : BCRow)
    (hr : r ∈ bc) (hx : x ∈ byCatchWithTransfer bc tr) :
    (∀ q ∈ byCatchOnly bc tr, q ∈ bc ∧ ∀ t ∈ tr, t.key ≠ q.key) ∧
      (r ∈ byCatchOnly bc tr ∨ ∃ t ∈ tr, t.key = r.key) ∧
      x.tonnage ≠ 0 ∧
      ∃ p ∈ bc, ∃ t ∈ tr, t.key = p.key ∧ x.key = p.key ∧
        x.tonnage = p.tonnage - t.tonnage ∧ x.overtime = p.overtime - t.overtime := by
  refine ⟨?_, ?_, mem_byCatchWithTransfer bc tr x hx⟩
  · intro q hq
    obtain ⟨hq1, hq2⟩ := List.mem_filter.mp hq
    obtain ⟨hq3, -⟩ := List.mem_filter.mp hq1
    simp only [Bool.not_eq_true', List.any_eq_false, decide_eq_true_eq] at hq2
    exact ⟨hq3, hq2⟩
  · by_cases hmatch : ∃ t ∈ tr, t.key = r.key
    · exact Or.inr hmatch
    · refine Or.inl (List.mem_filter.mpr ⟨List.mem_filter.mpr ⟨hr, ?_⟩, ?_⟩)
      · simp only [Bool.not_eq_true', List.any_eq_false, decide_eq_true_eq]
        intro y hy hykey
        obtain ⟨-, p, -, t, ht, htp, hyp, -, -⟩ := mem_byCatchWithTransfer bc tr y hy
        refine hmatch ⟨t, ht, ?_⟩
        rw [htp, ← hyp, hykey]
      · simp only [Bool.not_eq_true', List.any_eq_false, decide_eq_true_eq]
        exact fun t ht htkey => hmatch ⟨t, ht, htkey⟩

lemma byCatchWithTransfer_eval :
    byCatchWithTransfer [⟨⟨1, 1, 1, 1⟩, 5, 1⟩, ⟨⟨2, 1, 1, 1⟩, 4, 0⟩]
      [⟨⟨1, 1, 1, 1⟩, 2, 0⟩] = [⟨⟨1, 1, 1, 1⟩, 3, 1⟩] := by
  norm_num [byCatchWithTransfer, List.filterMap_cons, List.find?]

/-- Witness for C9 (amended): one by-catch row with a matching lesser
transfer (netted to 5 − 2 = 3 tonnes) and one unmatched by-catch row. -/
theorem by_catch_partition_witness :
    (⟨⟨1, 1, 1, 1⟩, 5, 1⟩ : BCRow) ∈
        [(⟨⟨1, 1, 1, 1⟩, 5, 1⟩ : BCRow), ⟨⟨2, 1, 1, 1⟩, 4, 0⟩] ∧
      (⟨⟨1, 1, 1, 1⟩, 3, 1⟩ : BCRow) ∈
        byCatchWithTransfer [⟨⟨1, 1, 1, 1⟩, 5, 1⟩, ⟨⟨2, 1, 1, 1⟩, 4, 0⟩]
          [⟨⟨1, 1, 1, 1⟩, 2, 0⟩] ∧
      ((∀ q ∈ byCatchOnly [⟨⟨1, 1, 1, 1⟩, 5, 1⟩, ⟨⟨2, 1, 1, 1⟩, 4, 0⟩]
            [⟨⟨1, 1, 1, 1⟩, 2, 0⟩],
          q ∈ [(⟨⟨1, 1, 1, 1⟩, 5, 1⟩ : BCRow), ⟨⟨2, 1, 1, 1⟩, 4, 0⟩] ∧
            ∀ t ∈ [(⟨⟨1, 1, 1, 1⟩, 2, 0⟩ : BCRow)], t.key ≠ q.key) ∧
        ((⟨⟨1, 1, 1, 1⟩, 5, 1⟩ : BCRow) ∈
            byCatchOnly [⟨⟨1, 1, 1, 1⟩, 5, 1⟩, ⟨⟨2, 1, 1, 1⟩, 4, 0⟩]
              [⟨⟨1, 1, 1, 1⟩, 2, 0⟩] ∨
          ∃ t ∈ [(⟨⟨1, 1, 1, 1⟩, 2, 0⟩ : BCRow)],
            t.key = (⟨⟨1, 1, 1, 1⟩, 5, 1⟩ : BCRow).key) ∧
        (⟨⟨1, 1, 1, 1⟩, 3, 1⟩ : BCRow).tonnage ≠ 0 ∧
        ∃ p ∈ [(⟨⟨1, 1, 1, 1⟩, 5, 1⟩ : BCRow), ⟨⟨2, 1, 1, 1⟩, 4, 0⟩],
          ∃ t ∈ [(⟨⟨1, 1, 1, 1⟩, 2, 0⟩ : BCRow)], t.key = p.key ∧
            (⟨⟨1, 1, 1, 1⟩, 3, 1⟩ : BCRow).key = p.key ∧
            (⟨⟨1, 1, 1, 1⟩, 3, 1⟩ : BCRow).tonnage = p.tonnage - t.tonnage ∧
            (⟨⟨1, 1, 1, 1⟩, 3, 1⟩ : BCRow).overtime = p.overtime - t.overtime) :=
  ⟨List.mem_cons_self _ _, byCatchWithTransfer_eval ▸ List.mem_cons_self _ _,
    by_catch_partition [⟨⟨1, 1, 1, 1⟩, 5, 1⟩, ⟨⟨2, 1, 1, 1⟩, 4, 0⟩] [⟨⟨1, 1, 1, 1⟩, 2, 0⟩]
      ⟨⟨1, 1, 1, 1⟩, 5, 1⟩ ⟨⟨1, 1, 1, 1⟩, 3, 1⟩ (List.mem_cons_self _ _)
      (byCatchWithTransfer_eval ▸ List.mem_cons_self _ _)⟩

/-- Counterexample to C9 as stated: with one by-catch row (key `k`, 5 t)
and one matching transfer row (key `k`, 2 t), the concatenated output is
the whole transfer table followed by the netted matched row — the key `k`
appears in BOTH the transfer component and the matched component, so the
three partitions are not mutually exclusive on the key, and their union is
not the by-catch-eligible set. -/
theorem by_catch_partition_cex :
    byCatchConcat [⟨⟨1, 1, 1, 1⟩, 5, 0⟩] [⟨⟨1, 1, 1, 1⟩, 2, 0⟩] =
      [⟨⟨1, 1, 1, 1⟩, 2, 0⟩, ⟨⟨1, 1, 1, 1⟩, 3, 0⟩] ∧
      (⟨(1 : ℤ), 1, 1, 1⟩ : BCKey) ∈
        (([⟨⟨1, 1, 1, 1⟩, 2, 0⟩] : List BCRow)).map BCRow.key ∧
      (⟨(1 : ℤ), 1, 1, 1⟩ : BCKey) ∈
        (byCatchWithTransfer [⟨⟨1, 1, 1, 1⟩, 5, 0⟩] [⟨⟨1, 1, 1, 1⟩, 2, 0⟩]).map
          BCRow.key := by
  refine ⟨?_, by decide, ?_⟩
  · norm_num [byCatchConcat, byCatchOnly, byCatchWithTransfer, List.filterMap_cons,
      List.find?, List.filter_cons, List.any_cons]
  · norm_num [byCatchWithTransfer, List.filterMap_cons, List.find?]

end Attica
